import Mathlib

/-!
Shallow embedding of the quiz-solver repository (main.py, quiz_solver.py,
llm_handler.py) together with theorems settling the specification claims.

Conventions of the embedding:
* Python strings are Lean `String`s; character-level scanning works on
  `List Char` obtained via `String.toList`.
* Python `None` for an answer value is `Option.none`; a Python function that
  can raise is modelled with `Except String`.
* Network, browser and third-party-library effects (requests, playwright,
  pandas, PyPDF2, the LLM transport, json parsing of external payloads) are
  supplied by an explicit environment record of functions, so the control
  flow of the repository code stays fully explicit.
* CPython float values are modelled as exact rationals obtained from the
  decimal/scientific literal; IEEE rounding, inf and nan are outside the
  scope of every claim and are not modelled.
-/

namespace QuizModel

/-- Python substring test on character lists: true when `pat` occurs as a
contiguous infix of the list. -/
def containsAux (pat : List Char) : List Char → Bool
  | [] => pat.isEmpty
  | c :: rest => pat.isPrefixOf (c :: rest) || containsAux pat rest

/-- Python `pat in s` for strings. -/
def pyContains (s pat : String) : Bool := containsAux pat.toList s.toList

/-- Python `s.lower()` restricted to ASCII letters, which is all the keyword
checks of the repository use. -/
def pyLower (s : String) : String := String.mk (s.toList.map Char.toLower)

/-- Drop leading whitespace characters. -/
def dropLeadingWs : List Char → List Char
  | [] => []
  | c :: rest => if c.isWhitespace then dropLeadingWs rest else c :: rest

/-- Python `s.strip()` on ASCII whitespace: drop it from both ends. -/
def pyStrip (s : String) : String :=
  String.mk ((dropLeadingWs ((dropLeadingWs s.toList).reverse)).reverse)

/-- Python slicing `s[:n]` by code points. -/
def pyTake (s : String) (n : Nat) : String := String.mk (s.toList.take n)

/-- Python `s.startswith(pre)`. -/
def pyStartsWith (s pre : String) : Bool := pre.toList.isPrefixOf s.toList

/-- Python `s.endswith(suf)`. -/
def pyEndsWith (s suf : String) : Bool := suf.toList.isSuffixOf s.toList

/-- Python truthiness of an optional string: `None` and the empty string are
falsy. -/
def pyFalsyOpt : Option String → Bool
  | none => true
  | some s => s == ""

/-- Accumulate a run of ASCII digits, allowing single underscores between
digits as the CPython number parser does; returns the value, the number of
digits consumed, and the rest of the input. -/
def digitsAux : Nat → Nat → List Char → Nat × Nat × List Char
  | acc, k, '_' :: c :: rest =>
      if c.isDigit then digitsAux (acc * 10 + (c.toNat - 48)) (k + 1) rest
      else (acc, k, '_' :: c :: rest)
  | acc, k, c :: rest =>
      if c.isDigit then digitsAux (acc * 10 + (c.toNat - 48)) (k + 1) rest
      else (acc, k, c :: rest)
  | acc, k, [] => (acc, k, [])

/-- Parse a nonempty digit run (value, digit count, rest of input). -/
def parseUDigits : List Char → Option (Nat × Nat × List Char)
  | c :: rest => if c.isDigit then some (digitsAux (c.toNat - 48) 1 rest) else none
  | [] => none

/-- Digit run that must consume the whole input, as in the tail of an int
literal. -/
def unsignedIntTail (cs : List Char) : Option Nat :=
  match parseUDigits cs with
  | some (v, _, []) => some v
  | _ => none

/-- CPython `int(s)` after stripping: optional sign then a digit run; `none`
models `ValueError`. -/
def pyIntOfChars : List Char → Option Int
  | '+' :: rest => (unsignedIntTail rest).map (fun v => (v : Int))
  | '-' :: rest => (unsignedIntTail rest).map (fun v => -(v : Int))
  | cs => (unsignedIntTail cs).map (fun v => (v : Int))

/-- CPython `int(s)`: strip surrounding whitespace, then parse a signed
decimal literal. -/
def pyInt (s : String) : Option Int := pyIntOfChars (pyStrip s).toList

/-- Mantissa of a CPython float literal: `digits [. digits?]` or `. digits`;
returns the value and the rest of the input. -/
def parseMantissa (cs : List Char) : Option (ℚ × List Char) :=
  match parseUDigits cs with
  | some (ip, _, rest) =>
      match rest with
      | '.' :: rest2 =>
          match parseUDigits rest2 with
          | some (fp, k, rest3) => some ((ip : ℚ) + (fp : ℚ) / (10 : ℚ) ^ k, rest3)
          | none => some ((ip : ℚ), rest2)
      | _ => some ((ip : ℚ), rest)
  | none =>
      match cs with
      | '.' :: rest2 =>
          match parseUDigits rest2 with
          | some (fp, k, rest3) => some ((fp : ℚ) / (10 : ℚ) ^ k, rest3)
          | none => none
      | _ => none

/-- Exponent tail of a float literal: optional sign then digits, consuming the
whole remaining input. -/
def expTail (m : ℚ) : List Char → Option ℚ
  | '+' :: rest => (unsignedIntTail rest).map (fun e => m * (10 : ℚ) ^ e)
  | '-' :: rest => (unsignedIntTail rest).map (fun e => m / (10 : ℚ) ^ e)
  | cs => (unsignedIntTail cs).map (fun e => m * (10 : ℚ) ^ e)

/-- Apply an optional `e`/`E` exponent suffix and require end of input. -/
def applyExponent (m : ℚ) : List Char → Option ℚ
  | [] => some m
  | 'e' :: rest => expTail m rest
  | 'E' :: rest => expTail m rest
  | _ => none

/-- Body of a float literal after the sign. -/
def floatBody (cs : List Char) : Option ℚ :=
  match parseMantissa cs with
  | some (m, rest) => applyExponent m rest
  | none => none

/-- CPython `float(s)` after stripping: optional sign then mantissa and
optional exponent; inf and nan literals are out of claim scope and rejected. -/
def pyFloatOfChars : List Char → Option ℚ
  | '+' :: rest => floatBody rest
  | '-' :: rest => (floatBody rest).map Neg.neg
  | cs => floatBody cs

/-- CPython `float(s)`: strip surrounding whitespace, then parse a signed
decimal or scientific literal as an exact rational. -/
def pyFloat (s : String) : Option ℚ := pyFloatOfChars (pyStrip s).toList

/-- Answer values produced by the solver: a Python int, float or str. -/
inductive Answer where
  | int (n : Int)
  | float (q : ℚ)
  | str (s : String)
deriving DecidableEq

/-- Numeric coercion at the end of llm_handler.py solve_generic (lines
151-158): when the answer text contains a dot try `float`, otherwise try
`int`; a `ValueError` keeps the string unchanged. -/
def coerceAnswer (answer : String) : Answer :=
  if pyContains answer "." then
    match pyFloat answer with
    | some q => .float q
    | none => .str answer
  else
    match pyInt answer with
    | some n => .int n
    | none => .str answer

/-- The LLM backend selected at startup. -/
inductive Provider where
  | openai
  | anthropic
deriving DecidableEq

/-- Advisory plan record returned by plan_solution; the sentinel plans of the
code set only the steps field. -/
structure Plan where
  steps : List String
  data_sources : String := ""
  processing : String := ""
  expected_answer_type : String := ""
deriving DecidableEq

/-- State of LLMHandler after construction. The transport of both providers
is collapsed into one respond function (prompt to completion text or
transport exception), and json.loads of a plan response is the parsePlan
function (none models JSONDecodeError); the exact prompt texts are declared
out of scope by the spec and are abstracted by tagging functions below. -/
structure LLMState where
  client : Option Provider
  provider : Option Provider
  respond : String → Except String String
  parsePlan : String → Option Plan

/-- Environment-level configuration read by LLMHandler.__init__: optional
API keys, and whether constructing each provider client succeeds. -/
structure LLMConfig where
  openai_key : Option String
  anthropic_key : Option String
  openaiInitOk : Bool
  anthropicInitOk : Bool

/-- llm_handler.py LLMHandler.__init__ (lines 15-45): try OpenAI first when
its key is set, fall back to Anthropic when no client resulted and its key is
set; a failed construction leaves client as None. -/
def llmInit (cfg : LLMConfig) (respond : String → Except String String)
    (parsePlan : String → Option Plan) : LLMState :=
  let st0 : Option Provider × Option Provider :=
    if cfg.openai_key.isSome then
      (if cfg.openaiInitOk then (some .openai, some .openai) else (none, none))
    else (none, none)
  let st1 : Option Provider × Option Provider :=
    if st0.1.isNone && cfg.anthropic_key.isSome then
      (if cfg.anthropicInitOk then (some .anthropic, some .anthropic) else (none, st0.2))
    else st0
  { client := st1.1, provider := st1.2, respond := respond, parsePlan := parsePlan }

/-- Tag for the planning prompt built around a question (exact prompt text is
out of the spec scope). -/
def planPrompt (question : String) : String := "PLAN: " ++ question

/-- Tag for the generic-answer prompt built around a question. -/
def genericPrompt (question : String) : String := "ANSWER: " ++ question

/-- Tag for the analysis prompt: the data dump is bounded to its first 1000
characters as in llm_handler.py line 172. -/
def analyzePrompt (dataDump instruction : String) : String :=
  "ANALYZE: " ++ pyTake dataDump 1000 ++ " TASK: " ++ instruction

/-- llm_handler.py plan_solution (lines 74-118): degraded sentinel without a
client, provider-specific call otherwise; a transport error or an unparsable
JSON response is downgraded to a sentinel plan. -/
def plan_solution (st : LLMState) (question : String) : Plan :=
  if st.client.isNone then { steps := ["Unable to plan - no LLM"] }
  else
    match st.provider with
    | some _ =>
        match st.respond (planPrompt question) with
        | .error _ => { steps := ["Error in planning"] }
        | .ok txt =>
            match st.parsePlan txt with
            | none => { steps := ["Generic approach"] }
            | some p => p
    | none => { steps := ["No provider"] }

/-- llm_handler.py solve_generic (lines 120-162): degraded sentinel without a
client; otherwise request a bare answer, strip it, and apply the numeric
coercion; a transport error becomes an error-string answer. -/
def solve_generic (st : LLMState) (question : String) : Answer :=
  if st.client.isNone then .str "Error: No LLM available"
  else
    match st.provider with
    | some _ =>
        match st.respond (genericPrompt question) with
        | .error e => .str ("Error: " ++ e)
        | .ok txt => coerceAnswer (pyStrip txt)
    | none => coerceAnswer "No provider"

/-- llm_handler.py analyze_data (lines 164-199): degraded sentinel without a
client; otherwise return the stripped completion text, no coercion. -/
def analyze_data (st : LLMState) (dataDump instruction : String) : String :=
  if st.client.isNone then "Error: No LLM available"
  else
    match st.provider with
    | some _ =>
        match st.respond (analyzePrompt dataDump instruction) with
        | .error e => "Error: " ++ e
        | .ok txt => pyStrip txt
    | none => "No provider"

/-- Characters of the literal scheme `http://`. -/
def httpChars : List Char := ['h', 't', 't', 'p', ':', '/', '/']

/-- Characters of the literal scheme `https://`. -/
def httpsChars : List Char := ['h', 't', 't', 'p', 's', ':', '/', '/']

/-- Match the regex fragment `https?://` at the head of the input (the greedy
optional `s` admits no backtracking here because `s` and `:` are distinct);
returns the matched characters and the remainder. -/
def schemeAt : List Char → Option (List Char × List Char)
  | 'h' :: 't' :: 't' :: 'p' :: 's' :: ':' :: '/' :: '/' :: rest => some (httpsChars, rest)
  | 'h' :: 't' :: 't' :: 'p' :: ':' :: '/' :: '/' :: rest => some (httpChars, rest)
  | _ => none

/-- Python regex class backslash-s over ASCII. -/
def isPySpace (c : Char) : Bool :=
  c == ' ' || c == '\t' || c == '\n' || c == '\r' || c == '\x0b' || c == '\x0c'

/-- Characters excluded by the class of quiz_solver.py line 61: whitespace
and the double quote. -/
def submitBad (c : Char) : Bool := isPySpace c || c == '\"'

/-- Fueled scanner for re.findall of the pattern scheme-plus-one-character
used at quiz_solver.py line 61: at each position try the pattern; on success
emit the 8- or 9-character match and resume after it, else advance one
character. Fuel at least the input length makes the scan complete, since
every step consumes at least one character. -/
def findUrlTokensF (bad : Char → Bool) : Nat → List Char → List (List Char)
  | 0, _ => []
  | _ + 1, [] => []
  | n + 1, c :: rest =>
      match schemeAt (c :: rest) with
      | some (m, d :: r2) =>
          if bad d then findUrlTokensF bad n rest
          else (m ++ [d]) :: findUrlTokensF bad n r2
      | some (_, []) => findUrlTokensF bad n rest
      | none => findUrlTokensF bad n rest

/-- re.findall of the submit-URL pattern over a string. -/
def reFindAllUrl1 (s : String) : List String :=
  (findUrlTokensF submitBad s.toList.length s.toList).map String.mk

/-- quiz_solver.py extract_submit_url (lines 59-63): all pattern matches,
filtered by a lowercased submit or answer keyword test, first survivor or
None. -/
def extract_submit_url (html : String) : Option String :=
  let urls := reFindAllUrl1 html
  let submit_urls := urls.filter
    (fun u => pyContains (pyLower u) "submit" || pyContains (pyLower u) "answer")
  submit_urls.head?

/-- re.search of quiz_solver.py line 133 (scheme plus one non-space
character): first match in scan order, or none. -/
def reSearchUrl : List Char → Option String
  | [] => none
  | c :: rest =>
      match schemeAt (c :: rest) with
      | some (m, d :: _) =>
          if isPySpace d then reSearchUrl rest else some (String.mk (m ++ [d]))
      | some (_, []) => reSearchUrl rest
      | none => reSearchUrl rest

/-- Match the regex fragment backslash-dot then the group
`(pdf|csv|xlsx|json)` at the head of the input, alternatives in regex order;
returns the captured extension and the remainder. -/
def extAt : List Char → Option (String × List Char)
  | '.' :: 'p' :: 'd' :: 'f' :: rest => some ("pdf", rest)
  | '.' :: 'c' :: 's' :: 'v' :: rest => some ("csv", rest)
  | '.' :: 'x' :: 'l' :: 's' :: 'x' :: rest => some ("xlsx", rest)
  | '.' :: 'j' :: 's' :: 'o' :: 'n' :: rest => some ("json", rest)
  | _ => none

/-- Lazy wildcard search of the fragment dot-star-question-mark before the
extension group: consume as few characters as possible before an extension
match; the wildcard does not cross a newline, which fails the whole attempt. -/
def findExt : List Char → Option (String × List Char)
  | [] => none
  | c :: rest =>
      match extAt (c :: rest) with
      | some (e, r) => some (e, r)
      | none => if c == '\n' then none else findExt rest

/-- Fueled scanner for re.findall of the file-URL pattern of quiz_solver.py
line 82. The pattern has one group, so Python returns the captured
extensions, not the full URLs. -/
def findFileExtsF : Nat → List Char → List String
  | 0, _ => []
  | _ + 1, [] => []
  | n + 1, c :: rest =>
      match schemeAt (c :: rest) with
      | some (_, after) =>
          match findExt after with
          | some (e, r) => e :: findFileExtsF n r
          | none => findFileExtsF n rest
      | none => findFileExtsF n rest

/-- re.findall of the file-URL pattern over a string. -/
def reFindAllFileExts (s : String) : List String :=
  findFileExtsF s.toList.length s.toList

/-- Split on every newline, keeping empty pieces, as Python str.split. -/
def splitNl : List Char → List (List Char)
  | [] => [[]]
  | '\n' :: rest => [] :: splitNl rest
  | c :: rest =>
      match splitNl rest with
      | [] => [[c]]
      | l :: ls => (c :: l) :: ls

/-- Predicate of the question-line loop at quiz_solver.py line 55: the
stripped line starts with Q and the line contains a dot. -/
def isQuestionLine (line : String) : Bool :=
  pyStartsWith (pyStrip line) "Q" && pyContains line "."

/-- The for loop of extract_question: first matching line, stripped. -/
def extractQuestionLoop : List String → Option String
  | [] => none
  | line :: rest =>
      if isQuestionLine line then some (pyStrip line) else extractQuestionLoop rest

/-- quiz_solver.py extract_question (lines 51-57): scan the newline-split
lines for the first labeled question line, else fall back to the first 500
characters of the text. -/
def extract_question (text : String) : String :=
  match extractQuestionLoop ((splitNl text.toList).map String.mk) with
  | some q => q
  | none => pyTake text 500

/-- External effects used by QuizSolver: page rendering, HTTP body fetch,
json decode plus dump of an API response, and the content extractors of the
third-party libraries (each maps raw bytes, modelled as a string, to the
bounded text the code builds from them, or to a raised exception). -/
structure Env where
  render : String → Option String × Option String
  http : String → Except String String
  jsonLoadsDumps : String → Except String String
  pdfText : String → Except String String
  csvToString : String → Except String String
  excelToString : String → Except String String
  submit : String × Option String × String × Option Answer → Except String String

/-- requests.get: a URL without an http or https scheme raises MissingSchema
before any network traffic; otherwise the environment answers. -/
def pyRequestsGet (env : Env) (url : String) : Except String String :=
  if pyStartsWith url "http://" || pyStartsWith url "https://" then env.http url
  else .error "MissingSchema"

/-- quiz_solver.py process_pdf (lines 97-108). -/
def process_pdf (env : Env) (st : LLMState) (content question : String) : Answer :=
  match env.pdfText content with
  | .error _ => .str "PDF processing failed"
  | .ok text => solve_generic st (question ++ "\nContent:\n" ++ pyTake text 2000)

/-- quiz_solver.py process_csv (lines 110-118). -/
def process_csv (env : Env) (st : LLMState) (content question : String) : Answer :=
  match env.csvToString content with
  | .error _ => .str "CSV processing failed"
  | .ok text => solve_generic st (question ++ "\nData:\n" ++ pyTake text 2000)

/-- quiz_solver.py process_excel (lines 120-128). -/
def process_excel (env : Env) (st : LLMState) (content question : String) : Answer :=
  match env.excelToString content with
  | .error _ => .str "Excel processing failed"
  | .ok text => solve_generic st (question ++ "\nData:\n" ++ pyTake text 2000)

/-- quiz_solver.py handle_file_download (lines 79-95). The findall returns
captured extensions; a raised exception anywhere in the try block yields the
fixed failure string; falling off the end of the function returns None. -/
def handle_file_download (env : Env) (st : LLMState) (question quiz_url html : String) :
    Option Answer :=
  match reFindAllFileExts html with
  | [] => none
  | file_url :: _ =>
      match pyRequestsGet env file_url with
      | .error _ => some (.str "Unable to process file")
      | .ok content =>
          if pyEndsWith file_url ".pdf" then some (process_pdf env st content question)
          else if pyEndsWith file_url ".csv" then some (process_csv env st content question)
          else if pyEndsWith file_url ".xlsx" then some (process_excel env st content question)
          else none

/-- quiz_solver.py handle_api_call (lines 130-141): search the question for a
URL, fetch and json-decode it, forward the bounded dump to solve_generic; a
raised exception yields the fixed failure string, no match returns None. -/
def handle_api_call (env : Env) (st : LLMState) (question : String) : Option Answer :=
  match reSearchUrl question.toList with
  | none => none
  | some api_url =>
      match pyRequestsGet env api_url with
      | .error _ => some (.str "API call failed")
      | .ok body =>
          match env.jsonLoadsDumps body with
          | .error _ => some (.str "API call failed")
          | .ok dump =>
              some (solve_generic st (question ++ "\nResponse:\n" ++ pyTake dump 2000))

/-- quiz_solver.py handle_data_analysis (lines 143-145): a generic-solve
alias. -/
def handle_data_analysis (env : Env) (st : LLMState)
    (question quiz_url html : String) : Answer :=
  solve_generic st question

/-- quiz_solver.py handle_visualization (lines 147-149): a generic-solve
alias. -/
def handle_visualization (env : Env) (st : LLMState) (question quiz_url : String) : Answer :=
  solve_generic st question

/-- quiz_solver.py execute_plan (lines 65-77): the keyword cascade over the
lowercased question; the plan argument is never inspected. -/
def execute_plan (env : Env) (st : LLMState) (plan : Plan)
    (question quiz_url html : String) : Option Answer :=
  if (["download", "file"]).any (fun x => pyContains (pyLower question) x) then
    handle_file_download env st question quiz_url html
  else if (["api", "endpoint"]).any (fun x => pyContains (pyLower question) x) then
    handle_api_call env st question
  else if (["sum", "average", "count", "analyze"]).any (fun x => pyContains (pyLower question) x) then
    some (handle_data_analysis env st question quiz_url html)
  else if (["chart", "graph"]).any (fun x => pyContains (pyLower question) x) then
    some (handle_visualization env st question quiz_url)
  else
    some (solve_generic st question)

/-- quiz_solver.py solve (lines 33-49): render, fail fatally on a falsy
markup or text, else extract, plan, and execute; the submit URL is computed
and only logged. -/
def solve (env : Env) (st : LLMState) (quiz_url : String) : Except String (Option Answer) :=
  let rendered := env.render quiz_url
  if pyFalsyOpt rendered.1 || pyFalsyOpt rendered.2 then .error "Failed to render quiz page"
  else
    let html := rendered.1.getD ""
    let text := rendered.2.getD ""
    let question := extract_question text
    let _submit_url := extract_submit_url html
    let plan := plan_solution st question
    .ok (execute_plan env st plan question quiz_url html)

/-- Result of quiz_solver.py submit_answer (lines 151-160): the parsed
response body, or an error record when the post raised. -/
inductive SubmitResult where
  | ok (body : String)
  | err (msg : String)
deriving DecidableEq

/-- quiz_solver.py submit_answer: post the fixed-shape payload, downgrade a
transport exception to an error record. -/
def submit_answer (env : Env) (email : String) (secret : Option String)
    (url : String) (answer : Option Answer) : SubmitResult :=
  match env.submit (email, secret, url, answer) with
  | .ok body => .ok body
  | .error e => .err e

/-- Parsed JSON body of an inbound request; each field is the result of
dict.get on the body. A request whose body is not a truthy dict is modelled
as none at the use site. -/
structure ReqBody where
  secret : Option String
  email : Option String
  url : Option String
deriving DecidableEq

/-- Session record of main.py active_sessions. -/
structure Session where
  start_time : ℚ
  attempts : Nat
deriving DecidableEq

/-- The session table: requester email to session record. -/
def SessionTable : Type := String → Option Session

/-- Dictionary update on the session table. -/
def setSession (t : SessionTable) (k : String) (v : Session) : SessionTable :=
  fun k2 => if k2 = k then some v else t k2

/-- Responses of the quiz route, one per return site of main.py. -/
inductive QuizResp where
  | invalidJson
  | invalidSecret
  | missingParam
  | timeout
  | answered (result : SubmitResult)
  | internalError (msg : String)
deriving DecidableEq

/-- HTTP status code attached to each response of main.py. -/
def statusCode : QuizResp → Nat
  | .invalidJson => 400
  | .invalidSecret => 403
  | .missingParam => 400
  | .timeout => 408
  | .answered _ => 200
  | .internalError _ => 500

/-- main.py verify_secret (lines 31-44): reject a falsy body, then reject
when the secret field of the body differs from the configured SECRET. Returns
the rejection response, or none when the wrapped handler runs. -/
def verify_secret (secretCfg : Option String) (data : Option ReqBody) : Option QuizResp :=
  match data with
  | none => some .invalidJson
  | some d => if d.secret ≠ secretCfg then some .invalidSecret else none

/-- main.py quiz route body (lines 49-103) after the secret check: validate
email and url, create the session on first contact, reject and reset on a
timeout above 180 seconds, otherwise solve, submit, and count the attempt; a
raised solve error becomes a 500 response. -/
def quizBody (secretCfg : Option String) (env : Env) (st : LLMState)
    (sessions : SessionTable) (now : ℚ) (d : ReqBody) : QuizResp × SessionTable :=
  if pyFalsyOpt d.email || pyFalsyOpt d.url then (.missingParam, sessions)
  else
    let email := d.email.getD ""
    let quiz_url := d.url.getD ""
    let sessions1 :=
      if (sessions email).isNone then setSession sessions email ⟨now, 0⟩ else sessions
    let s := (sessions1 email).getD ⟨now, 0⟩
    if now - s.start_time > 180 then
      (.timeout, setSession sessions1 email ⟨now, 0⟩)
    else
      match solve env st quiz_url with
      | .error e => (.internalError e, sessions1)
      | .ok answer =>
          let result := submit_answer env email secretCfg quiz_url answer
          (.answered result, setSession sessions1 email ⟨s.start_time, s.attempts + 1⟩)

/-- The full inbound quiz request: verify_secret wrapping the route body. -/
def quiz_route (secretCfg : Option String) (env : Env) (st : LLMState)
    (sessions : SessionTable) (now : ℚ) (data : Option ReqBody) : QuizResp × SessionTable :=
  match verify_secret secretCfg data with
  | some resp => (resp, sessions)
  | none =>
      match data with
      | some d => quizBody secretCfg env st sessions now d
      | none => (.invalidJson, sessions)

/-- The five mutually exclusive classifications of the StrategyRouter. -/
inductive Strategy where
  | fileDownload
  | apiCall
  | dataAnalysis
  | visualization
  | generic
deriving DecidableEq

/-- The ordered keyword rules of the router, as the specification describes
them. -/
def routerRules : List (List String × Strategy) :=
  [(["download", "file"], .fileDownload),
   (["api", "endpoint"], .apiCall),
   (["sum", "average", "count", "analyze"], .dataAnalysis),
   (["chart", "graph"], .visualization)]

/-- First-match-wins evaluation of an ordered rule list over the lowercased
question text, defaulting to the generic strategy. -/
def firstMatchRoute (question : String) : List (List String × Strategy) → Strategy
  | [] => .generic
  | (kws, s) :: rest =>
      if kws.any (fun x => pyContains (pyLower question) x) then s
      else firstMatchRoute question rest

/-- Dispatch one selected strategy to its handler. -/
def runStrategy (env : Env) (st : LLMState) (strat : Strategy)
    (question quiz_url html : String) : Option Answer :=
  match strat with
  | .fileDownload => handle_file_download env st question quiz_url html
  | .apiCall => handle_api_call env st question
  | .dataAnalysis => some (handle_data_analysis env st question quiz_url html)
  | .visualization => some (handle_visualization env st question quiz_url)
  | .generic => some (solve_generic st question)

/-- Numeric coercion exactly as claim C2 words it: attempt an integer parse
first, then a floating-point parse, otherwise keep the trimmed string. Used
only to compare the specification wording against coerceAnswer. -/
def coerceIntFirstSpec (answer : String) : Answer :=
  match pyInt answer with
  | some n => .int n
  | none =>
      match pyFloat answer with
      | some q => .float q
      | none => .str answer

/-- Concrete environment in which every external capability fails, including
rendering. -/
def envW : Env :=
  ⟨fun _ => (none, none), fun _ => .error "net", fun _ => .error "net",
   fun _ => .error "net", fun _ => .error "net", fun _ => .error "net",
   fun _ => .error "net"⟩

/-- Concrete environment whose rendering succeeds with a download question on
a page holding no file URL. -/
def envRenderOk : Env :=
  { envW with
    render := fun _ =>
      (some "<html><body>no links here</body></html>", some "Q1. download the data file.") }

/-- Concrete degraded LLM state (no client). -/
def stW : LLMState := ⟨none, none, fun _ => .error "no llm", fun _ => none⟩

/-- Concrete session table with one stale session. -/
def tableW : SessionTable := fun e => if e = "a@b.c" then some ⟨0, 2⟩ else none

/-- Concrete request body matching the configured secret. -/
def bodyW : ReqBody := ⟨some "s", some "a@b.c", some "http://q"⟩

/-- Claim C6: the Answer produced by the strategy-execution step is
independent of the Plan contents; execute_plan never branches on its plan
argument, reclassifying from the raw question text instead. -/
theorem claim_C6_plan_is_advisory (env : Env) (st : LLMState) (p1 p2 : Plan)
    (question quiz_url html : String) :
    execute_plan env st p1 question quiz_url html =
      execute_plan env st p2 question quiz_url html := rfl

/-- Claim C5: the router evaluates its five classifications as an ordered
list of keyword-containment predicates over the lowercased question with
first match winning and no fallthrough, and the question about downloading
a file and analyzing it selects FileDownload, not DataAnalysis. Totality of
execute_plan gives exactly one branch per invocation. -/
theorem claim_C5_router_first_match :
    (∀ (env : Env) (st : LLMState) (plan : Plan) (question quiz_url html : String),
      execute_plan env st plan question quiz_url html =
        runStrategy env st (firstMatchRoute question routerRules) question quiz_url html) ∧
    firstMatchRoute "please download the file and analyze it" routerRules =
      Strategy.fileDownload := by
  constructor
  · intro env st plan q u h
    cases h1 : (["download", "file"]).any (fun x => pyContains (pyLower q) x) <;>
    cases h2 : (["api", "endpoint"]).any (fun x => pyContains (pyLower q) x) <;>
    cases h3 : (["sum", "average", "count", "analyze"]).any (fun x => pyContains (pyLower q) x) <;>
    cases h4 : (["chart", "graph"]).any (fun x => pyContains (pyLower q) x) <;>
    simp [execute_plan, routerRules, firstMatchRoute, runStrategy, h1, h2, h3, h4]
  · decide

/-- Claim C2, counterexample: the coercion of solve_generic is not an
integer parse followed by a floating-point parse. On the oracle response
text of one-e-five the code keeps the string, while the claimed order would
produce the float one hundred thousand, because the code gates on the
presence of a dot instead of trying both parses. -/
theorem claim_C2_counterexample :
    solve_generic ⟨some .openai, some .openai, fun _ => .ok "1e5", fun _ => none⟩ "q" =
      .str "1e5" ∧
    coerceIntFirstSpec "1e5" = .float 100000 ∧
    Answer.str "1e5" ≠ Answer.float 100000 := by
  refine ⟨by decide, ?_, by decide⟩
  have h : coerceIntFirstSpec "1e5" = .float ((1 : ℚ) * 10 ^ 5) := rfl
  rw [h]
  simp only [Answer.float.injEq]
  norm_num

/-- Claim C2, amended: solve_generic strips the oracle response and coerces
it by trying a float parse when the trimmed text contains a dot and an
integer parse otherwise, keeping the trimmed string on parse failure; all
the listed examples hold as stated. -/
theorem claim_C2_amended (p : Provider) (parse : String → Option Plan) (r question : String) :
    solve_generic ⟨some p, some p, fun _ => .ok r, parse⟩ question = coerceAnswer (pyStrip r) ∧
    coerceAnswer "42" = .int 42 ∧
    coerceAnswer "3.14" = .float (157 / 50) ∧
    coerceAnswer "42abc" = .str "42abc" ∧
    coerceAnswer "7" = .int 7 ∧
    coerceAnswer "7.5" = .float (15 / 2) ∧
    coerceAnswer "seven" = .str "seven" := by
  refine ⟨rfl, by decide, ?_, by decide, by decide, ?_, by decide⟩
  · have h : coerceAnswer "3.14" = .float ((3 : ℚ) + 14 / 10 ^ 2) := rfl
    rw [h]
    simp only [Answer.float.injEq]
    norm_num
  · have h : coerceAnswer "7.5" = .float ((7 : ℚ) + 5 / 10 ^ 1) := rfl
    rw [h]
    simp only [Answer.float.injEq]
    norm_num

/-- The question-line loop equals the first match of the line predicate. -/
theorem extractQuestionLoop_eq_find (l : List String) :
    extractQuestionLoop l = (l.find? isQuestionLine).map pyStrip := by
  induction l with
  | nil => rfl
  | cons line rest ih =>
      by_cases h : isQuestionLine line
      · simp [extractQuestionLoop, List.find?, h]
      · simp [extractQuestionLoop, List.find?, h, ih]

/-- Claim C9: extract_question returns the stripped first line matching the
labeled-question pattern (stripped line starts with Q and the line contains
a dot) in a single deterministic pass over the newline-split lines, and
falls back to the fixed 500-character prefix of the full text when no line
matches. -/
theorem claim_C9_question_extraction :
    (∀ text : String,
      extract_question text =
        match ((splitNl text.toList).map String.mk).find? isQuestionLine with
        | some line => pyStrip line
        | none => pyTake text 500) ∧
    extract_question "intro\nQ2. What is 2+2?\nQ3. more." = "Q2. What is 2+2?" ∧
    extract_question "no labeled line here" = pyTake "no labeled line here" 500 := by
  refine ⟨?_, by decide, by decide⟩
  intro text
  unfold extract_question
  rw [extractQuestionLoop_eq_find]
  cases ((splitNl text.toList).map String.mk).find? isQuestionLine <;> simp

/-- Claim C10: for a truthy JSON body, the bad-secret rejection happens
exactly when the secret field of the body differs from the configured
SECRET; in particular with no configured secret and no secret field the
check passes and the handler runs. -/
theorem claim_C10_secret_check :
    (∀ (secretCfg : Option String) (d : ReqBody),
      verify_secret secretCfg (some d) = some QuizResp.invalidSecret ↔ d.secret ≠ secretCfg) ∧
    (∀ e u : Option String, verify_secret none (some ⟨none, e, u⟩) = none) := by
  constructor
  · intro cfg d
    by_cases hc : d.secret = cfg
    · simp [verify_secret, hc]
    · simp [verify_secret, hc]
  · intro e u
    rfl

/-- Claim C10, witness: a concrete mismatching secret is rejected. -/
theorem claim_C10_secret_check_witness :
    verify_secret (some "s3cret") (some ⟨some "wrong", some "a@b.c", some "http://q"⟩) =
      some QuizResp.invalidSecret :=
  (claim_C10_secret_check.1 (some "s3cret") ⟨some "wrong", some "a@b.c", some "http://q"⟩).2
    (by decide)

/-- Claim C7: whenever construction leaves no LLM client, solve_generic
returns the fixed degraded sentinel and plan_solution and analyze_data
return their fixed sentinels, with no exception; a configuration without
any credentials always produces such a degraded state. -/
theorem claim_C7_degraded_oracle (cfg : LLMConfig)
    (respond : String → Except String String) (parsePlan : String → Option Plan)
    (question dataDump instruction : String)
    (h : (llmInit cfg respond parsePlan).client = none) :
    solve_generic (llmInit cfg respond parsePlan) question = .str "Error: No LLM available" ∧
    plan_solution (llmInit cfg respond parsePlan) question =
      { steps := ["Unable to plan - no LLM"] } ∧
    analyze_data (llmInit cfg respond parsePlan) dataDump instruction =
      "Error: No LLM available" ∧
    ((cfg.openai_key = none ∧ cfg.anthropic_key = none) →
      (llmInit cfg respond parsePlan).client = none) := by
  refine ⟨?_, ?_, ?_, fun hk => ?_⟩
  · simp [solve_generic, h]
  · simp [plan_solution, h]
  · simp [analyze_data, h]
  · simp [llmInit, hk.1, hk.2]

/-- Claim C7, witness: the no-credentials configuration yields the sentinel
answer. -/
theorem claim_C7_degraded_oracle_witness :
    solve_generic (llmInit ⟨none, none, true, true⟩ (fun _ => .error "down") (fun _ => none))
        "any question" = .str "Error: No LLM available" :=
  (claim_C7_degraded_oracle ⟨none, none, true, true⟩ (fun _ => .error "down") (fun _ => none)
    "any question" "d" "i" rfl).1

/-- Claim C8: an authenticated request whose recorded session started more
than 180 seconds before now is answered with the timeout rejection and the
session is reset to an attempt counter of zero; the response is the same for
every solver environment, so no solve attempt influences it. -/
theorem claim_C8_session_timeout (secretCfg : Option String) (env : Env) (st : LLMState)
    (sessions : SessionTable) (now : ℚ) (d : ReqBody) (email url : String) (s : Session)
    (hsec : d.secret = secretCfg) (hem : d.email = some email) (hne : email ≠ "")
    (hurl : d.url = some url) (hun : url ≠ "")
    (hses : sessions email = some s) (helapsed : now - s.start_time > 180) :
    (quiz_route secretCfg env st sessions now (some d)).1 = .timeout ∧
    (quiz_route secretCfg env st sessions now (some d)).2 email = some ⟨now, 0⟩ := by
  have hv : verify_secret secretCfg (some d) = none := by simp [verify_secret, hsec]
  have hfal : (pyFalsyOpt d.email || pyFalsyOpt d.url) = false := by
    simp [pyFalsyOpt, hem, hurl, hne, hun]
  have hroute : quiz_route secretCfg env st sessions now (some d) =
      quizBody secretCfg env st sessions now d := by
    simp [quiz_route, hv]
  rw [hroute]
  unfold quizBody
  rw [hfal]
  simp only [Bool.false_eq_true, if_false]
  rw [hem]
  simp only [Option.getD_some]
  have h1 : (sessions email).isNone = false := by rw [hses]; rfl
  rw [h1]
  simp only [Bool.false_eq_true, if_false]
  rw [hses]
  simp only [Option.getD_some]
  rw [if_pos helapsed]
  refine ⟨rfl, ?_⟩
  simp [setSession]

/-- Claim C8, witness: a stale concrete session is rejected with the timeout
response and reset. -/
theorem claim_C8_session_timeout_witness :
    (quiz_route (some "s") envW stW tableW 200 (some bodyW)).1 = QuizResp.timeout ∧
    (quiz_route (some "s") envW stW tableW 200 (some bodyW)).2 "a@b.c" = some ⟨200, 0⟩ :=
  claim_C8_session_timeout (some "s") envW stW tableW 200 bodyW "a@b.c" "http://q" ⟨0, 2⟩
    rfl rfl (by decide) rfl (by decide) rfl (by norm_num)

/-- Claim C1: on a page that renders successfully into a download question
with no matching file URL, solve returns the Python None answer rather than
a non-null Answer, because handle_file_download falls off the end of the
function; a falsy rendering still fails fatally with the fixed render
error. -/
theorem claim_C1_solve_null_answer :
    solve envRenderOk stW "http://quiz.example" = .ok none ∧
    solve envW stW "http://quiz.example" = .error "Failed to render quiz page" :=
  ⟨rfl, rfl⟩

/-- A successful scheme match is one of the two scheme literals. -/
theorem schemeAt_shape (cs m r : List Char) (h : schemeAt cs = some (m, r)) :
    m = httpsChars ∨ m = httpChars := by
  unfold schemeAt at h
  split at h
  · simp only [Option.some.injEq, Prod.mk.injEq] at h
    exact Or.inl h.1.symm
  · simp only [Option.some.injEq, Prod.mk.injEq] at h
    exact Or.inr h.1.symm
  · exact absurd h (by simp)

/-- The submit keyword cannot occur in a scheme followed by one character. -/
theorem containsAux_submit_https (x : Char) :
    containsAux ['s', 'u', 'b', 'm', 'i', 't'] (httpsChars ++ [x]) = false := by
  simp [containsAux, httpsChars, List.isPrefixOf]

/-- The submit keyword cannot occur in the short scheme plus one character. -/
theorem containsAux_submit_http (x : Char) :
    containsAux ['s', 'u', 'b', 'm', 'i', 't'] (httpChars ++ [x]) = false := by
  simp [containsAux, httpChars, List.isPrefixOf]

/-- The answer keyword cannot occur in a scheme followed by one character. -/
theorem containsAux_answer_https (x : Char) :
    containsAux ['a', 'n', 's', 'w', 'e', 'r'] (httpsChars ++ [x]) = false := by
  simp [containsAux, httpsChars, List.isPrefixOf]

/-- The answer keyword cannot occur in the short scheme plus one character. -/
theorem containsAux_answer_http (x : Char) :
    containsAux ['a', 'n', 's', 'w', 'e', 'r'] (httpChars ++ [x]) = false := by
  simp [containsAux, httpChars, List.isPrefixOf]

/-- Every match of the submit-URL pattern is a scheme plus one character,
because the character class of the pattern has no repetition. -/
theorem findUrlTokensF_shape (bad : Char → Bool) :
    ∀ (n : Nat) (cs m : List Char),
      m ∈ findUrlTokensF bad n cs →
      ∃ sch d, (sch = httpsChars ∨ sch = httpChars) ∧ m = sch ++ [d] := by
  intro n
  induction n with
  | zero =>
      intro cs m h
      simp [findUrlTokensF] at h
  | succ n ih =>
      intro cs m h
      cases cs with
      | nil => simp [findUrlTokensF] at h
      | cons c rest =>
          rcases hs : schemeAt (c :: rest) with _ | ⟨m1, r1⟩
          · simp only [findUrlTokensF, hs] at h
            exact ih rest m h
          · cases r1 with
            | nil =>
                simp only [findUrlTokensF, hs] at h
                exact ih rest m h
            | cons d r2 =>
                simp only [findUrlTokensF, hs] at h
                by_cases hb : bad d
                · rw [if_pos hb] at h
                  exact ih rest m h
                · rw [if_neg hb] at h
                  rcases List.mem_cons.1 h with rfl | hmem
                  · exact ⟨m1, d, schemeAt_shape _ _ _ hs, rfl⟩
                  · exact ih r2 m hmem

/-- No scheme-plus-one-character token survives the keyword filter. -/
theorem keyword_filter_false (sch : List Char) (d : Char)
    (hsch : sch = httpsChars ∨ sch = httpChars) :
    (pyContains (pyLower (String.mk (sch ++ [d]))) "submit" ||
     pyContains (pyLower (String.mk (sch ++ [d]))) "answer") = false := by
  have h1 : pyContains (pyLower (String.mk (sch ++ [d]))) "submit" =
      containsAux ['s', 'u', 'b', 'm', 'i', 't'] ((sch ++ [d]).map Char.toLower) := rfl
  have h2 : pyContains (pyLower (String.mk (sch ++ [d]))) "answer" =
      containsAux ['a', 'n', 's', 'w', 'e', 'r'] ((sch ++ [d]).map Char.toLower) := rfl
  rw [h1, h2, List.map_append]
  rcases hsch with rfl | rfl
  · have hs : httpsChars.map Char.toLower = httpsChars := by decide
    rw [hs]
    simp only [List.map_cons, List.map_nil]
    rw [containsAux_submit_https, containsAux_answer_https]
    rfl
  · have hs : httpChars.map Char.toLower = httpChars := by decide
    rw [hs]
    simp only [List.map_cons, List.map_nil]
    rw [containsAux_submit_http, containsAux_answer_http]
    rfl

/-- Claim C3: because the pattern at line 61 matches a scheme plus exactly
one character, no extracted token can contain a submission keyword, so
extract_submit_url returns None on every markup, including markup that
plainly contains a submit URL. -/
theorem claim_C3_submit_url_always_none : ∀ html : String, extract_submit_url html = none := by
  intro html
  have hfil : ∀ u ∈ (findUrlTokensF submitBad html.toList.length html.toList).map String.mk,
      ¬ ((pyContains (pyLower u) "submit" || pyContains (pyLower u) "answer") = true) := by
    intro u hu
    rcases List.mem_map.1 hu with ⟨m, hm, rfl⟩
    rcases findUrlTokensF_shape submitBad _ _ m hm with ⟨sch, d, hsch, rfl⟩
    rw [keyword_filter_false sch d hsch]
    simp
  simp only [extract_submit_url, reFindAllUrl1]
  rw [List.filter_eq_nil_iff.2 hfil]
  rfl

/-- A successful extension match captures one of the four literals. -/
theorem extAt_shape (cs : List Char) (e : String) (r : List Char) (h : extAt cs = some (e, r)) :
    e = "pdf" ∨ e = "csv" ∨ e = "xlsx" ∨ e = "json" := by
  unfold extAt at h
  split at h <;> simp_all

/-- The lazy extension search only produces the four extension literals. -/
theorem findExt_shape : ∀ (cs : List Char) (e : String) (r : List Char),
    findExt cs = some (e, r) → e = "pdf" ∨ e = "csv" ∨ e = "xlsx" ∨ e = "json" := by
  intro cs
  induction cs with
  | nil => intro e r h; simp [findExt] at h
  | cons c rest ih =>
      intro e r h
      rcases hx : extAt (c :: rest) with _ | ⟨e1, r1⟩
      · simp only [findExt, hx] at h
        by_cases hc : (c == '\n') = true
        · rw [if_pos hc] at h
          exact absurd h (by simp)
        · rw [if_neg hc] at h
          exact ih e r h
      · simp only [findExt, hx, Option.some.injEq, Prod.mk.injEq] at h
        rcases h with ⟨rfl, rfl⟩
        exact extAt_shape _ _ _ hx

/-- Every element the file-URL findall returns is a bare extension string,
because the single group of the pattern is what Python findall collects. -/
theorem findFileExtsF_shape :
    ∀ (n : Nat) (cs : List Char) (e : String), e ∈ findFileExtsF n cs →
      e = "pdf" ∨ e = "csv" ∨ e = "xlsx" ∨ e = "json" := by
  intro n
  induction n with
  | zero => intro cs e h; simp [findFileExtsF] at h
  | succ n ih =>
      intro cs e h
      cases cs with
      | nil => simp [findFileExtsF] at h
      | cons c rest =>
          rcases hs : schemeAt (c :: rest) with _ | ⟨m1, after⟩
          · simp only [findFileExtsF, hs] at h
            exact ih rest e h
          · rcases hx : findExt after with _ | ⟨e1, r⟩
            · simp only [findFileExtsF, hs, hx] at h
              exact ih rest e h
            · simp only [findFileExtsF, hs, hx] at h
              rcases List.mem_cons.1 h with rfl | hmem
              · exact findExt_shape _ _ _ hx
              · exact ih r e hmem

/-- Fetching a bare extension string raises MissingSchema inside requests. -/
theorem ext_missing_schema (env : Env) (e : String)
    (h : e = "pdf" ∨ e = "csv" ∨ e = "xlsx" ∨ e = "json") :
    pyRequestsGet env e = .error "MissingSchema" := by
  rcases h with rfl | rfl | rfl | rfl <;> rfl

/-- Claim C4: handle_file_download never fetches a file URL and never
reaches a content extractor. It returns None when the markup has no
candidate, and otherwise tries to fetch the captured extension string, which
raises MissingSchema and yields the fixed failure answer; in particular the
markup holding a csv URL with the sum-download question produces the failure
string instead of dispatching the CSV extractor. -/
theorem claim_C4_file_download_never_fetches :
    (∀ (env : Env) (st : LLMState) (question quiz_url html : String),
      handle_file_download env st question quiz_url html = none ∨
      handle_file_download env st question quiz_url html =
        some (.str "Unable to process file")) ∧
    (∀ (env : Env) (st : LLMState),
      handle_file_download env st "What is the sum? download file" "http://quiz.example"
        "<a href=https://example.com/data.csv>" = some (.str "Unable to process file")) := by
  constructor
  · intro env st q u html
    rcases hf : reFindAllFileExts html with _ | ⟨e, tl⟩
    · left
      simp only [handle_file_download, hf]
    · right
      have hmem : e ∈ findFileExtsF html.toList.length html.toList := by
        have h2 := hf
        unfold reFindAllFileExts at h2
        rw [h2]
        exact List.mem_cons_self e tl
      have he := findFileExtsF_shape _ _ e hmem
      simp only [handle_file_download, hf, ext_missing_schema env e he]
  · intro env st
    have hf : reFindAllFileExts "<a href=https://example.com/data.csv>" = ["csv"] := by decide
    simp only [handle_file_download, hf]
    rfl

end QuizModel
